import Mathlib

/-!
Verification of the STONESOUP community-profile-search frontend and its
hybrid-search contract.

Shallow embedding conventions:
* TypeScript strings are Lean `String`s, except where a claim is about
  character-level structure (`truncateContent`), where the character list of
  the string is used directly.
* TypeScript `number`s holding counts become `Nat`; scores, rates and
  durations become `ℚ`; optional fields become `Option`.
* `async` calls to collaborators (the HTTP client, the backend endpoints)
  become explicit function parameters returning `Except` values; a thrown
  exception is an `Except.error`.  Functions that must not issue a request in
  some branch additionally return how many requests they issued, so that
  "no collaborator was contacted" is expressible.
* React state updates become pure state-transition functions
  `State → State × Action`, where the `Action` records the side effect the
  handler dispatched.
-/

namespace Stonesoup

/-! ## Data model (frontend/lib/types.ts) -/

/-- The `ScoreExplanation` from types.ts: overall score plus optional named
sub-scores. -/
structure ScoreExplanation where
  total_score : ℚ
  semantic_score : Option ℚ
  text_score : Option ℚ
  popularity_score : Option ℚ
  recency_score : Option ℚ
  explanation : String
  deriving Repr, DecidableEq

/-- The `SearchMetadata` from types.ts. -/
structure SearchMetadata where
  query : String
  total_results : Nat
  execution_time_ms : ℚ
  search_type : String
  semantic_threshold : Option ℚ
  page : Nat
  page_size : Nat
  generated_at : String
  deriving Repr, DecidableEq

/-- The `SearchScope` enum from types.ts. -/
inductive SearchScope where
  | all
  | stories
  | members
  deriving Repr, DecidableEq

/-- The `Member` from types.ts (record fields only; `Record<string, any>` style
metadata is not needed by any claim and is omitted from the embedding). -/
structure Member where
  id : String
  email : String
  name : String
  username : Option String
  bio : Option String
  location : Option String
  timezone : Option String
  avatar_url : Option String
  title : Option String
  company : Option String
  years_of_experience : Option Nat
  hourly_rate : Option ℚ
  skills : List String
  expertise_areas : List String
  industries : List String
  linkedin_url : Option String
  github_url : Option String
  twitter_url : Option String
  website_url : Option String
  portfolio_urls : List String
  is_active : Bool
  is_verified : Bool
  is_available : Bool
  profile_completed : Bool
  has_embedding : Bool
  created_at : String
  updated_at : String
  last_active_at : Option String
  cauldron_id : String
  profile_url : Option String
  story_count : Nat
  deriving Repr, DecidableEq

/-- The `Story` from types.ts (`metadata : Record<string, any>` omitted). -/
structure Story where
  id : String
  title : String
  content : String
  story_type : String
  status : String
  is_ai_generated : Bool
  member_id : String
  cauldron_id : String
  created_at : String
  updated_at : String
  member_names : List String
  skills : List String
  tags : List String
  embedding_status : String
  has_embedding : Bool
  deriving Repr, DecidableEq

/-- The `MemberSearchResult` from types.ts (the `SearchResult` base fields are
inlined). -/
structure MemberSearchResult where
  id : String
  title : String
  content : String
  score : ℚ
  score_explanation : Option ScoreExplanation
  highlights : Option (List (String × List String))
  created_at : String
  updated_at : String
  cauldron_id : String
  member : Member
  profile_completeness : ℚ
  skill_match : ℚ
  experience_relevance : ℚ
  availability_status : String
  last_active : Option String
  deriving Repr, DecidableEq

/-- The `StorySearchResult` from types.ts (the `SearchResult` base fields are
inlined). -/
structure StorySearchResult where
  id : String
  title : String
  content : String
  score : ℚ
  score_explanation : Option ScoreExplanation
  highlights : Option (List (String × List String))
  created_at : String
  updated_at : String
  cauldron_id : String
  story : Story
  content_quality : ℚ
  engagement_score : ℚ
  recency_score : ℚ
  member_names : List String
  skill_matches : List String
  deriving Repr, DecidableEq

/-- The `HybridSearchResponse` from types.ts (with the `BaseResponse` fields). -/
structure HybridSearchResponse where
  success : Bool
  message : Option String
  timestamp : Option String
  story_results : List StorySearchResult
  story_total : Nat
  member_results : List MemberSearchResult
  member_total : Nat
  search_metadata : SearchMetadata
  hybrid_explanation : String
  suggestions : List String
  ai_summary : Option String
  deriving Repr, DecidableEq

/-- The `SearchSuggestion` from types.ts.  The `type` field keeps its source name:
Lean accepts it as a plain identifier. -/
structure SearchSuggestion where
  query : String
  type : String
  score : ℚ
  category : Option String
  result_count : Nat
  popular : Bool
  deriving Repr, DecidableEq

/-! ## Error taxonomy (frontend/lib/api.ts)

`ApiError` carries a `status`; `AuthError` is the subclass produced for 401
responses; `NetworkError` the subclass with status 0.  The embedding keeps
one record with the instance-of flags the utilities `isAuthError` /
`isApiError` test. -/

structure ApiErr where
  message : String
  status : Int
  isApi : Bool
  isAuth : Bool
  deriving Repr, DecidableEq

/-- An `AuthError` as constructed by `new AuthError(msg)`. -/
def authError (msg : String) : ApiErr :=
  { message := msg, status := 401, isApi := true, isAuth := true }

/-- An `ApiError` as constructed by `new ApiError(msg, status)`. -/
def apiError (msg : String) (status : Int) : ApiErr :=
  { message := msg, status := status, isApi := true, isAuth := false }

/-- A `NetworkError` (an `ApiError` with status 0). -/
def networkError (msg : String) : ApiErr :=
  { message := msg, status := 0, isApi := true, isAuth := false }

/-- The `isAuthError` from api.ts. -/
def isAuthError (e : ApiErr) : Bool := e.isAuth

/-- The `isApiError` from api.ts. -/
def isApiError (e : ApiErr) : Bool := e.isApi

/-- The `getErrorMessage` from api.ts, restricted to the error values the
embedding can produce (every `ApiErr` is an `Error` carrying a message). -/
def getErrorMessage (e : ApiErr) : String := e.message

/-- JavaScript's `String.prototype.trim()`: strip leading and trailing
whitespace.  Modelled directly on the character list so that it evaluates by
kernel reduction. -/
def jsTrim (s : String) : String :=
  ⟨((s.data.dropWhile Char.isWhitespace).reverse.dropWhile
      Char.isWhitespace).reverse⟩

/-! ## `getSuggestions` (api.ts lines 348–363)

```ts
export async function getSuggestions(query, limit = 10) {
  if (!query.trim()) { return []; }
  try {
    const client = await createClientApiClient();
    return await client.getSearchSuggestions(query, limit);
  } catch (error) { return []; }
}
```

The collaborator `client.getSearchSuggestions` is a parameter `fetch`; the
second component of the result counts the requests issued. -/

def getSuggestions (fetch : String → Nat → Except ApiErr (List SearchSuggestion))
    (query : String) (limit : Nat) : List SearchSuggestion × Nat :=
  if jsTrim query = "" then ([], 0)
  else
    match fetch query limit with
    | .ok suggestions => (suggestions, 1)
    | .error _ => ([], 1)

/-! ## `truncateContent` (story-card.tsx lines 111–114)

```ts
const truncateContent = (content: string, maxLength: number = 200) => {
  if (content.length <= maxLength) return content;
  return content.substring(0, maxLength) + '...';
};
```

Modelled on the string's character list, so that `length`, `substring` and
`+` are `List.length`, `List.take` and `List.append`. -/

def truncateContent (content : List Char) (maxLength : Nat) : List Char :=
  if content.length ≤ maxLength then content
  else content.take maxLength ++ ('.' :: '.' :: '.' :: [])

/-! ## The search page handler (search-page.tsx lines 58–103)

`handleSearch` short-circuits on blank queries; otherwise it dispatches
`performQuickSearch(query.trim(), scope, SEARCH_DEFAULTS.page_size)` and
stores either the results or the error message.  The collaborator is the
`doSearch` parameter; the `Bool` in the result records whether a search was
dispatched. -/

/-- The slice of `SearchState` (types.ts) that `handleSearch` touches. -/
structure SearchState where
  query : String
  results : Option HybridSearchResponse
  loading : Bool
  error : Option String
  hasSearched : Bool
  scope : SearchScope
  deriving Repr, DecidableEq

/-- The `SEARCH_DEFAULTS.page_size` from types.ts. -/
def SEARCH_DEFAULTS_page_size : Nat := 20

def handleSearch
    (doSearch : String → SearchScope → Nat → Except ApiErr HybridSearchResponse)
    (st : SearchState) (query : String) (scope : SearchScope) :
    SearchState × Bool :=
  if jsTrim query = "" then (st, false)
  else
    match doSearch (jsTrim query) scope SEARCH_DEFAULTS_page_size with
    | .ok results =>
        ({ st with query := jsTrim query, scope := scope, loading := false,
                   results := some results, hasSearched := true,
                   error := none }, true)
    | .error e =>
        ({ st with query := jsTrim query, scope := scope, loading := false,
                   error := some (getErrorMessage e), results := none }, true)

/-! ## The results view (search-results component, SearchResults)

```ts
if (loading) { return <LoadingSkeleton .../>; }
const getTotalResults = () => results.member_total + results.story_total;
if (getTotalResults() === 0) { return <EmptyState .../>; }
...
{results.member_total > results.member_results.length && (
  <Button>View {results.member_total - results.member_results.length} more members</Button>)}
...
{results.story_total > results.story_results.length && (
  <Button>View {results.story_total - results.story_results.length} more stories</Button>)}
```

The render outcome is abstracted to the three top-level shapes; the results
view carries the optional "view N more" buttons for each section. -/

/-- The `getTotalResults` from the SearchResults component. -/
def getTotalResults (results : HybridSearchResponse) : Nat :=
  results.member_total + results.story_total

/-- The "View N more members" button: rendered exactly when the member total
exceeds the number of member results shown, offering the difference. -/
def memberViewMore (results : HybridSearchResponse) : Option Nat :=
  if results.member_results.length < results.member_total then
    some (results.member_total - results.member_results.length)
  else none

/-- The "View N more stories" button, symmetric to `memberViewMore`. -/
def storyViewMore (results : HybridSearchResponse) : Option Nat :=
  if results.story_results.length < results.story_total then
    some (results.story_total - results.story_results.length)
  else none

/-- The top-level shapes the SearchResults component can render. -/
inductive SearchRender where
  | loadingSkeleton
  | emptyState
  | resultsView (membersMore : Option Nat) (storiesMore : Option Nat)
  deriving Repr, DecidableEq

/-- The SearchResults component body: skeleton while loading, empty-state when
the computed total is zero, otherwise the results view. -/
def renderSearchResults (results : HybridSearchResponse) (loading : Bool) :
    SearchRender :=
  if loading then .loadingSkeleton
  else if getTotalResults results = 0 then .emptyState
  else .resultsView (memberViewMore results) (storyViewMore results)

/-! ## The search bar (search-bar.tsx)

State slice and handlers used by `handleKeyDown` (lines 147–182),
`handleSearch` (132–138) and `handleSuggestionClick` (140–145).  The
`BarAction` component of each handler's result records the `onSearch`
dispatch, if any. -/

namespace SearchBar

/-- The search-bar component state read and written by the key handler. -/
structure BarState where
  inputValue : String
  selectedScope : SearchScope
  showSuggestionsDropdown : Bool
  currentSuggestions : List SearchSuggestion
  selectedSuggestionIndex : Int
  deriving Repr, DecidableEq

/-- The key values `handleKeyDown` distinguishes. -/
inductive Key where
  | arrowDown
  | arrowUp
  | enter
  | escape
  | other
  deriving Repr, DecidableEq

/-- The outward effect of a handler: nothing, or an `onSearch` dispatch. -/
inductive BarAction where
  | noop
  | search (query : String) (scope : SearchScope)
  deriving Repr, DecidableEq

/-- The `handleSearch` from search-bar.tsx: when the input trims non-empty,
dispatch `onSearch` with the trimmed text and close the dropdown. -/
def handleSearch (st : BarState) : BarState × BarAction :=
  if jsTrim st.inputValue = "" then (st, .noop)
  else
    ({ st with showSuggestionsDropdown := false, selectedSuggestionIndex := -1 },
     .search (jsTrim st.inputValue) st.selectedScope)

/-- The `handleSuggestionClick` from search-bar.tsx: adopt the suggestion's query
as the input, close the dropdown, and dispatch `onSearch` with it. -/
def handleSuggestionClick (st : BarState) (suggestion : SearchSuggestion) :
    BarState × BarAction :=
  ({ st with inputValue := suggestion.query, showSuggestionsDropdown := false,
             selectedSuggestionIndex := -1 },
   .search suggestion.query st.selectedScope)

/-- The `handleKeyDown` from search-bar.tsx.  An out-of-bounds Enter selection
(impossible under the component's invariant) maps the undefined JavaScript
array access to a no-op. -/
def handleKeyDown (st : BarState) (key : Key) : BarState × BarAction :=
  if st.showSuggestionsDropdown = false ∨ st.currentSuggestions.length = 0 then
    match key with
    | .enter => handleSearch st
    | _ => (st, .noop)
  else
    match key with
    | .arrowDown =>
        ({ st with selectedSuggestionIndex :=
            if st.selectedSuggestionIndex <
                (st.currentSuggestions.length : Int) - 1 then
              st.selectedSuggestionIndex + 1
            else st.selectedSuggestionIndex }, .noop)
    | .arrowUp =>
        ({ st with selectedSuggestionIndex :=
            if 0 < st.selectedSuggestionIndex then
              st.selectedSuggestionIndex - 1
            else -1 }, .noop)
    | .enter =>
        if 0 ≤ st.selectedSuggestionIndex then
          match st.currentSuggestions.get? st.selectedSuggestionIndex.toNat with
          | some s => handleSuggestionClick st s
          | none => (st, .noop)
        else handleSearch st
    | .escape =>
        ({ st with showSuggestionsDropdown := false,
                   selectedSuggestionIndex := -1 }, .noop)
    | .other => (st, .noop)

end SearchBar

/-! ## `retryApiCall` (api.ts lines 399–425)

```ts
export async function retryApiCall<T>(fn, maxRetries = 3, delayMs = 1000) {
  let lastError: any;
  for (let i = 0; i < maxRetries; i++) {
    try { return await fn(); } catch (error) {
      lastError = error;
      if (isAuthError(error) || (isApiError(error) && error.status >= 400 && error.status < 500)) {
        throw error;
      }
      if (i < maxRetries - 1) {
        await new Promise(resolve => setTimeout(resolve, delayMs * (i + 1)));
      }
    }
  }
  throw lastError;
}
```

`fn` is modelled as a function of the 0-based attempt number, so that one
embedding covers calls whose outcome changes between attempts.  The result
carries the number of attempts made and the list of waits performed, in
order; the thrown error is `none` exactly when the loop never ran
(`lastError` still `undefined`). -/

/-- The don't-retry test of `retryApiCall`:
`isAuthError(error) || (isApiError(error) && error.status >= 400 && error.status < 500)`. -/
def nonRetryable (e : ApiErr) : Bool :=
  isAuthError e ||
    (isApiError e && decide (400 ≤ e.status) && decide (e.status < 500))

/-- The loop of `retryApiCall`: `i` is the current attempt number, the
recursion argument the number of iterations left (`maxRetries - i`). -/
def retryLoop (fn : Nat → Except ApiErr α) (delayMs : Nat) :
    Nat → Nat → Except (Option ApiErr) α × Nat × List Nat
  | _, 0 => (.error none, 0, [])
  | i, remaining + 1 =>
    match fn i with
    | .ok v => (.ok v, 1, [])
    | .error e =>
      if nonRetryable e then (.error (some e), 1, [])
      else
        match remaining with
        | 0 => (.error (some e), 1, [])
        | r + 1 =>
          let res := retryLoop fn delayMs (i + 1) (r + 1)
          (res.1, res.2.1 + 1, delayMs * (i + 1) :: res.2.2)

/-- The `retryApiCall` from api.ts: value-or-error, attempts made, waits
performed. -/
def retryApiCall (fn : Nat → Except ApiErr α) (maxRetries delayMs : Nat) :
    Except (Option ApiErr) α × Nat × List Nat :=
  retryLoop fn delayMs 0 maxRetries

/-! ## Pagination (types.ts `PaginatedResponse`; backend page computation)

The page computation itself runs in the FastAPI backend, which is not among
this repository's source files; only its response shape (`PaginatedResponse`
in types.ts) and consumers (`getMembers` in api.ts) are.  The computation is
therefore modelled from the spec. -/

/-- The `PaginatedResponse` from types.ts. -/
structure PaginatedResponse (α : Type) where
  items : List α
  total : Nat
  page : Nat
  page_size : Nat
  has_next : Bool
  has_previous : Bool
  deriving Repr, DecidableEq

/-- Modelled from the spec: the backend's page computation over a ranked
result list, absent from this repository's sources — "for a result set of
size N with `page_size = p`, requesting page `k` returns
`min(p, max(0, N - (k-1)*p))` items, and `has_next`/`has_previous` flags
match."  Pages are 1-based. -/
def paginate (xs : List α) (page page_size : Nat) : PaginatedResponse α :=
  { items := (xs.drop ((page - 1) * page_size)).take page_size
  , total := xs.length
  , page := page
  , page_size := page_size
  , has_next := decide (page * page_size < xs.length)
  , has_previous := decide (1 < page) }

/-! ## Suggestion derivation (backend endpoint; search-bar `fetchSuggestions`)

`ApiClient.getSearchSuggestions` (api.ts lines 204–210) forwards the query
and limit to the backend `/search/suggestions` endpoint and returns its data
(or `[]`).  The derivation itself runs in the backend, absent from this
repository's sources, and is modelled from the spec. -/

/-- Modelled from the spec: the backend suggestion derivation, absent from
this repository's sources — suggestions are read from the tenant's recorded
query log, "the suggestion list is capped" at the requested limit, "and must
never duplicate the original query text verbatim." -/
def deriveSuggestions (log : List SearchSuggestion) (query : String)
    (limit : Nat) : List SearchSuggestion :=
  (log.filter fun s => s.query != query).take limit

/-- The `fetchSuggestions` from search-bar.tsx (lines 59–76), returning the
suggestion list it stores into `currentSuggestions`: blank or disabled
lookups store `[]`; otherwise it stores `getSuggestions(query, 8)`.  The
transport to the backend is the `backend` parameter. -/
def fetchSuggestions
    (backend : String → Nat → Except ApiErr (List SearchSuggestion))
    (showSuggestions : Bool) (query : String) : List SearchSuggestion :=
  if jsTrim query = "" ∨ showSuggestions = false then []
  else (getSuggestions backend query 8).1

/-! ## Search-request validation (backend; api.ts `search`)

`ApiClient.search` (api.ts lines 188–194) posts the request; validation of
pagination parameters happens in the backend, absent from this repository's
sources, and is modelled from the spec. -/

/-- The request fields validation inspects (`SearchRequest` from types.ts;
the optional filter/boost fields do not participate in pagination
validation and are omitted). -/
structure SearchRequest where
  query : String
  scope : SearchScope
  page : Int
  page_size : Int
  deriving Repr, DecidableEq

/-- Failures the modelled search endpoint can surface. -/
inductive SearchFailure where
  | validation (field : String) (reason : String)
  | backendUnavailable
  deriving Repr, DecidableEq

/-- Modelled from the spec: field-level validation of a search request,
absent from this repository's sources — "malformed query (e.g. negative
page, page_size out of bounds): rejected before any collaborator is called;
surfaced to the caller with a precise field-level reason", with
"`page >= 1`, `page_size` bounded (e.g. 1–100)". -/
def validateSearchRequest (req : SearchRequest) : Option SearchFailure :=
  if req.page < 1 then
    some (.validation "page" "page must be at least 1")
  else if req.page_size < 1 then
    some (.validation "page_size" "page_size must be at least 1")
  else if 100 < req.page_size then
    some (.validation "page_size" "page_size must be at most 100")
  else none

/-- Modelled from the spec: the search endpoint — validation runs before any
collaborator call; the second component counts collaborator invocations. -/
def searchExecute (collab : SearchRequest → HybridSearchResponse)
    (req : SearchRequest) : Except SearchFailure HybridSearchResponse × Nat :=
  match validateSearchRequest req with
  | some e => (.error e, 0)
  | none => (.ok (collab req), 1)

/-! ## The frontend search leg (api.ts `ApiClient.search`,
`performAdvancedSearch`)

```ts
async search(request) {
  const response = await this.post('/search', request);
  if (!response.data) { throw new ApiError('No search results returned', 500); }
  return response.data;
}
export async function performAdvancedSearch(query, options = {}) {
  const client = await createClientApiClient();
  const request: SearchRequest = { query, ...SEARCH_DEFAULTS, ...options };
  return client.search(request);
}
```

The transport `this.post` is the `post` parameter; the second component of
`search`'s result lists the requests it issued to the backend `/search`
endpoint, in order.  Note that neither function validates the request
before posting it. -/

/-- Caller-supplied overrides of `performAdvancedSearch` (the
`Partial<SearchRequest>` options), restricted to the fields the embedded
`SearchRequest` carries. -/
structure SearchOptions where
  scope : Option SearchScope
  page : Option Int
  page_size : Option Int
  deriving Repr, DecidableEq

/-- The request object `performAdvancedSearch` builds:
`{ query, ...SEARCH_DEFAULTS, ...options }`.  A field the caller leaves
unset takes the value the posted request is read back with
(`SEARCH_DEFAULTS.scope = all`, `SEARCH_DEFAULTS.page_size = 20`; `page` is
absent from the defaults and defaults to 1 at the endpoint). -/
def buildSearchRequest (query : String) (options : SearchOptions) :
    SearchRequest :=
  { query := query
  , scope := options.scope.getD .all
  , page := options.page.getD 1
  , page_size := options.page_size.getD 20 }

/-- Method `search` of the ApiClient (api.ts lines 188–194): posts the
request as given — no validation — and returns the response data, throwing
when there is none. -/
def search
    (post : SearchRequest → Except ApiErr (Option HybridSearchResponse))
    (request : SearchRequest) :
    Except ApiErr HybridSearchResponse × List SearchRequest :=
  match post request with
  | .ok (some data) => (.ok data, [request])
  | .ok none => (.error (apiError "No search results returned" 500), [request])
  | .error e => (.error e, [request])

/-- Function `performAdvancedSearch` from api.ts (lines 333–346): merge the
defaults and options into a request and hand it to `ApiClient.search`. -/
def performAdvancedSearch
    (post : SearchRequest → Except ApiErr (Option HybridSearchResponse))
    (query : String) (options : SearchOptions) :
    Except ApiErr HybridSearchResponse × List SearchRequest :=
  search post (buildSearchRequest query options)

/-! ## Candidate scoring (backend Hybrid Search Engine)

The per-candidate scoring runs in the backend, absent from this repository's
sources; only its reported shape (`ScoreExplanation` in types.ts, rendered
by the member card) is frontend code.  The combination rule is modelled from
the spec (§4.2). -/

/-- Modelled from the spec: "all sub-scores are clamped to [0,1] before
combination". -/
def clamp01 (x : ℚ) : ℚ := max 0 (min 1 x)

/-- The documented per-axis weights of the score breakdown. -/
structure ScoringWeights where
  semantic : ℚ
  text : ℚ
  popularity : ℚ
  recency : ℚ
  deriving Repr, DecidableEq

/-- The raw per-axis sub-scores of a candidate; `none` when the signal is
unavailable (e.g. no stored embedding). -/
structure SubSignals where
  semantic : Option ℚ
  text : Option ℚ
  popularity : Option ℚ
  recency : Option ℚ
  deriving Repr, DecidableEq

/-- The four axes as (optional sub-score, weight) pairs. -/
def axisList (w : ScoringWeights) (s : SubSignals) : List (Option ℚ × ℚ) :=
  [(s.semantic, w.semantic), (s.text, w.text),
   (s.popularity, w.popularity), (s.recency, w.recency)]

/-- Total weight of the axes whose sub-score is available. -/
def availableWeight : List (Option ℚ × ℚ) → ℚ
  | [] => 0
  | (none, _) :: rest => availableWeight rest
  | (some _, w) :: rest => w + availableWeight rest

/-- Weighted sum of the clamped available sub-scores. -/
def weightedEvidence : List (Option ℚ × ℚ) → ℚ
  | [] => 0
  | (none, _) :: rest => weightedEvidence rest
  | (some v, w) :: rest => clamp01 v * w + weightedEvidence rest

/-- Modelled from the spec: the overall candidate score, absent from this
repository's sources — "the overall score is a convex combination (weights
sum to 1) unless a sub-score is unavailable ... in which case its weight is
redistributed proportionally among the remaining available sub-scores rather
than treating the missing value as zero".  Normalizing the weighted evidence
by the available weight is exactly proportional redistribution; a candidate
with no available axis scores 0. -/
def combinedScore (w : ScoringWeights) (s : SubSignals) : ℚ :=
  if availableWeight (axisList w s) = 0 then 0
  else weightedEvidence (axisList w s) / availableWeight (axisList w s)

/-- One axis's contribution under explicitly redistributed weights: an
available axis contributes its clamped sub-score times its proportional
share `w / availableWeight`; a missing axis contributes nothing. -/
def axisContribution (avail : ℚ) : Option ℚ × ℚ → ℚ
  | (none, _) => 0
  | (some v, w) => clamp01 v * (w / avail)

/-- The spec's redistribution rule read literally: the breakdown's axes
combine under their redistributed weights. -/
def redistributedScore (w : ScoringWeights) (s : SubSignals) : ℚ :=
  axisContribution (availableWeight (axisList w s)) (s.semantic, w.semantic) +
  axisContribution (availableWeight (axisList w s)) (s.text, w.text) +
  axisContribution (availableWeight (axisList w s))
    (s.popularity, w.popularity) +
  axisContribution (availableWeight (axisList w s)) (s.recency, w.recency)

/-! ## Concrete values used by witnesses -/

/-- A concrete suggestion. -/
def sampleSuggestion (q : String) : SearchSuggestion :=
  { query := q, type := "completion", score := 1/2, category := none,
    result_count := 3, popular := false }

/-- A concrete search-bar state with two suggestions and the second one
selected. -/
def sampleBarState : SearchBar.BarState :=
  { inputValue := "re", selectedScope := .all, showSuggestionsDropdown := true,
    currentSuggestions := [sampleSuggestion "react", sampleSuggestion "redux"],
    selectedSuggestionIndex := 1 }

/-- A concrete response: five members total, none returned on this page. -/
def sampleResponse : HybridSearchResponse :=
  { success := true, message := none, timestamp := none,
    story_results := [], story_total := 0,
    member_results := [], member_total := 5,
    search_metadata :=
      { query := "react", total_results := 5, execution_time_ms := 12,
        search_type := "hybrid", semantic_threshold := none, page := 1,
        page_size := 20, generated_at := "2025-01-01T00:00:00Z" },
    hybrid_explanation := "hybrid", suggestions := [], ai_summary := none }

/-- A concrete malformed request: negative page. -/
def sampleBadRequest : SearchRequest :=
  { query := "react", scope := .all, page := -1, page_size := 20 }

/-- Concrete caller options requesting the negative page `-1`. -/
def sampleBadOptions : SearchOptions :=
  { scope := none, page := some (-1), page_size := some 20 }

/-- Concrete weights (0.4 / 0.3 / 0.2 / 0.1). -/
def sampleWeights : ScoringWeights :=
  { semantic := 2/5, text := 3/10, popularity := 1/5, recency := 1/10 }

/-- Concrete sub-signals with a missing text axis and out-of-range raw
popularity and recency values. -/
def sampleSignals : SubSignals :=
  { semantic := some (1/2), text := none, popularity := some 2,
    recency := some (-1) }

/-! ## Claims C1, C2, C10 -/

/-- C1: a query that trims to the empty string short-circuits: the suggestion
lookup returns the empty list having issued no request, and the search-page
handler leaves the state untouched and dispatches no search. -/
theorem blank_query_short_circuits
    (fetch : String → Nat → Except ApiErr (List SearchSuggestion))
    (doSearch : String → SearchScope → Nat → Except ApiErr HybridSearchResponse)
    (st : SearchState) (query : String) (limit : Nat) (scope : SearchScope)
    (hq : jsTrim query = "") :
    getSuggestions fetch query limit = ([], 0) ∧
    handleSearch doSearch st query scope = (st, false) := by
  constructor
  · simp [getSuggestions, hq]
  · simp [handleSearch, hq]

/-- Witness for C1 at the whitespace-only query `"  "`. -/
theorem blank_query_short_circuits_witness :
    let st : SearchState :=
      { query := "", results := none, loading := false, error := none,
        hasSearched := false, scope := .all }
    getSuggestions (fun _ _ => .ok []) "  " 10 = ([], 0) ∧
    handleSearch (fun _ _ _ => .error (networkError "down")) st "  " .all
      = (st, false) :=
  blank_query_short_circuits (fun _ _ => .ok [])
    (fun _ _ _ => .error (networkError "down")) _ "  " 10 .all (by decide)

/-- C2: if the underlying suggestions request throws, `getSuggestions`
swallows the error and returns the empty list. -/
theorem getSuggestions_error_returns_empty
    (fetch : String → Nat → Except ApiErr (List SearchSuggestion))
    (query : String) (limit : Nat) (e : ApiErr)
    (hf : fetch query limit = .error e) :
    (getSuggestions fetch query limit).1 = [] := by
  unfold getSuggestions
  split
  · rfl
  · rw [hf]

/-- Witness for C2: a fetch that always throws yields the empty list. -/
theorem getSuggestions_error_returns_empty_witness :
    (getSuggestions (fun _ _ => .error (networkError "down")) "react" 10).1
      = [] :=
  getSuggestions_error_returns_empty
    (fun _ _ => .error (networkError "down")) "react" 10 (networkError "down")
    rfl

/-- C10: `truncateContent` is the identity on content no longer than
`maxLength`; longer content becomes its first `maxLength` characters followed
by `"..."`; either way the output length is at most `maxLength + 3`. -/
theorem truncateContent_spec (content : List Char) (maxLength : Nat) :
    (content.length ≤ maxLength → truncateContent content maxLength = content) ∧
    (maxLength < content.length →
      truncateContent content maxLength
        = content.take maxLength ++ ('.' :: '.' :: '.' :: [])) ∧
    (truncateContent content maxLength).length ≤ maxLength + 3 := by
  refine ⟨fun h => by simp [truncateContent, h], fun h => ?_, ?_⟩
  · simp [truncateContent, Nat.not_le.mpr h]
  · unfold truncateContent
    split
    · omega
    · simp only [List.length_append, List.length_take, List.length_cons,
        List.length_nil]
      omega

/-- C4: for a non-loading response, the results view totals members and
stories and renders the empty-state exactly when that total is zero. -/
theorem emptyState_iff_zero_total (results : HybridSearchResponse) :
    renderSearchResults results false = .emptyState ↔
      results.member_total + results.story_total = 0 := by
  unfold renderSearchResults getTotalResults
  by_cases htot : results.member_total + results.story_total = 0
  · simp [htot]
  · simp [htot]

/-- The `handleSearch` of the search bar either leaves the state unchanged (blank
input) or closes the dropdown and resets the selection index. -/
theorem handleSearch_state_cases (st : SearchBar.BarState) :
    (SearchBar.handleSearch st).1 = st ∨
      (SearchBar.handleSearch st).1 =
        { st with showSuggestionsDropdown := false,
                  selectedSuggestionIndex := -1 } := by
  unfold SearchBar.handleSearch
  split
  · exact Or.inl rfl
  · exact Or.inr rfl

/-- With the dropdown closed or no suggestions, a key event is a no-op except
Enter, which falls back to `handleSearch`. -/
theorem handleKeyDown_closed (st : SearchBar.BarState) (key : SearchBar.Key)
    (h : st.showSuggestionsDropdown = false ∨
      st.currentSuggestions.length = 0) :
    SearchBar.handleKeyDown st key =
      match key with
      | .enter => SearchBar.handleSearch st
      | _ => (st, .noop) := by
  unfold SearchBar.handleKeyDown
  rw [if_pos h]

/-- ArrowDown with the dropdown open advances the selection unless it is
already on the last suggestion. -/
theorem handleKeyDown_open_arrowDown (st : SearchBar.BarState)
    (h : ¬(st.showSuggestionsDropdown = false ∨
      st.currentSuggestions.length = 0)) :
    SearchBar.handleKeyDown st .arrowDown =
      ({ st with selectedSuggestionIndex :=
          if st.selectedSuggestionIndex <
              (st.currentSuggestions.length : Int) - 1 then
            st.selectedSuggestionIndex + 1
          else st.selectedSuggestionIndex }, .noop) := by
  unfold SearchBar.handleKeyDown
  rw [if_neg h]

/-- ArrowUp with the dropdown open moves the selection up, bottoming out at
`-1`. -/
theorem handleKeyDown_open_arrowUp (st : SearchBar.BarState)
    (h : ¬(st.showSuggestionsDropdown = false ∨
      st.currentSuggestions.length = 0)) :
    SearchBar.handleKeyDown st .arrowUp =
      ({ st with selectedSuggestionIndex :=
          if 0 < st.selectedSuggestionIndex then
            st.selectedSuggestionIndex - 1
          else -1 }, .noop) := by
  unfold SearchBar.handleKeyDown
  rw [if_neg h]

/-- Enter with the dropdown open either clicks the selected suggestion or
falls back to `handleSearch`. -/
theorem handleKeyDown_open_enter (st : SearchBar.BarState)
    (h : ¬(st.showSuggestionsDropdown = false ∨
      st.currentSuggestions.length = 0)) :
    SearchBar.handleKeyDown st .enter =
      (if 0 ≤ st.selectedSuggestionIndex then
        match st.currentSuggestions.get? st.selectedSuggestionIndex.toNat with
        | some s => SearchBar.handleSuggestionClick st s
        | none => (st, .noop)
      else SearchBar.handleSearch st) := by
  unfold SearchBar.handleKeyDown
  rw [if_neg h]

/-- Escape with the dropdown open closes it and resets the selection. -/
theorem handleKeyDown_open_escape (st : SearchBar.BarState)
    (h : ¬(st.showSuggestionsDropdown = false ∨
      st.currentSuggestions.length = 0)) :
    SearchBar.handleKeyDown st .escape =
      ({ st with showSuggestionsDropdown := false,
                 selectedSuggestionIndex := -1 }, .noop) := by
  unfold SearchBar.handleKeyDown
  rw [if_neg h]

/-- Any other key with the dropdown open is a no-op. -/
theorem handleKeyDown_open_other (st : SearchBar.BarState)
    (h : ¬(st.showSuggestionsDropdown = false ∨
      st.currentSuggestions.length = 0)) :
    SearchBar.handleKeyDown st .other = (st, .noop) := by
  unfold SearchBar.handleKeyDown
  rw [if_neg h]

/-- C9: any key event keeps the suggestion-selection index within
`[-1, length - 1]`, and Enter with a non-negative index (dropdown open)
selects the suggestion at exactly that index. -/
theorem handleKeyDown_selection_invariant (st : SearchBar.BarState)
    (key : SearchBar.Key)
    (hlo : -1 ≤ st.selectedSuggestionIndex)
    (hhi : st.selectedSuggestionIndex ≤
      (st.currentSuggestions.length : Int) - 1) :
    (-1 ≤ (SearchBar.handleKeyDown st key).1.selectedSuggestionIndex ∧
      (SearchBar.handleKeyDown st key).1.selectedSuggestionIndex ≤
        ((SearchBar.handleKeyDown st key).1.currentSuggestions.length : Int)
          - 1) ∧
    (key = .enter → st.showSuggestionsDropdown = true →
      0 ≤ st.selectedSuggestionIndex →
      ∃ s, st.currentSuggestions.get? st.selectedSuggestionIndex.toNat
            = some s ∧
        SearchBar.handleKeyDown st key =
          ({ st with inputValue := s.query, showSuggestionsDropdown := false,
                     selectedSuggestionIndex := -1 },
           .search s.query st.selectedScope)) := by
  have hsearchB : -1 ≤ (SearchBar.handleSearch st).1.selectedSuggestionIndex ∧
      (SearchBar.handleSearch st).1.selectedSuggestionIndex ≤
        ((SearchBar.handleSearch st).1.currentSuggestions.length : Int) - 1 := by
    rcases handleSearch_state_cases st with h | h <;> rw [h]
    · exact ⟨hlo, hhi⟩
    · refine ⟨?_, ?_⟩ <;> simp
  by_cases hc : st.showSuggestionsDropdown = false ∨
      st.currentSuggestions.length = 0
  · constructor
    · rw [handleKeyDown_closed st key hc]
      cases key
      · exact ⟨hlo, hhi⟩
      · exact ⟨hlo, hhi⟩
      · exact hsearchB
      · exact ⟨hlo, hhi⟩
      · exact ⟨hlo, hhi⟩
    · intro hkey hdrop hpos
      rcases hc with hc | hc
      · rw [hdrop] at hc; cases hc
      · rw [hc] at hhi; omega
  · constructor
    · cases key
      · rw [handleKeyDown_open_arrowDown st hc]
        refine ⟨?_, ?_⟩ <;> simp <;> split <;> omega
      · rw [handleKeyDown_open_arrowUp st hc]
        refine ⟨?_, ?_⟩ <;> simp <;> split <;> omega
      · rw [handleKeyDown_open_enter st hc]
        by_cases hp : 0 ≤ st.selectedSuggestionIndex
        · rw [if_pos hp]
          have hlen : st.currentSuggestions.length ≠ 0 := fun h0 =>
            hc (Or.inr h0)
          have hlt : st.selectedSuggestionIndex.toNat <
              st.currentSuggestions.length := by omega
          rw [List.get?_eq_get hlt]
          unfold SearchBar.handleSuggestionClick
          refine ⟨?_, ?_⟩ <;> simp
        · rw [if_neg hp]
          exact hsearchB
      · rw [handleKeyDown_open_escape st hc]
        refine ⟨?_, ?_⟩ <;> simp
      · rw [handleKeyDown_open_other st hc]
        exact ⟨hlo, hhi⟩
    · intro hkey _ hpos
      subst hkey
      have hlen : st.currentSuggestions.length ≠ 0 := fun h0 =>
        hc (Or.inr h0)
      have hlt : st.selectedSuggestionIndex.toNat <
          st.currentSuggestions.length := by omega
      refine ⟨st.currentSuggestions.get ⟨st.selectedSuggestionIndex.toNat, hlt⟩,
        List.get?_eq_get hlt, ?_⟩
      rw [handleKeyDown_open_enter st hc, if_pos hpos,
        List.get?_eq_get hlt]
      rfl

/-- Witness for C9 at a concrete two-suggestion state with the second
suggestion selected and the Enter key. -/
theorem handleKeyDown_selection_invariant_witness :
    (-1 ≤ sampleBarState.selectedSuggestionIndex ∧
      sampleBarState.selectedSuggestionIndex ≤
        (sampleBarState.currentSuggestions.length : Int) - 1) ∧
    ((-1 ≤ (SearchBar.handleKeyDown sampleBarState
        .enter).1.selectedSuggestionIndex ∧
      (SearchBar.handleKeyDown sampleBarState
        .enter).1.selectedSuggestionIndex ≤
        ((SearchBar.handleKeyDown sampleBarState
          .enter).1.currentSuggestions.length : Int) - 1) ∧
    (SearchBar.Key.enter = .enter →
      sampleBarState.showSuggestionsDropdown = true →
      0 ≤ sampleBarState.selectedSuggestionIndex →
      ∃ s, sampleBarState.currentSuggestions.get?
            sampleBarState.selectedSuggestionIndex.toNat = some s ∧
        SearchBar.handleKeyDown sampleBarState .enter =
          ({ sampleBarState with inputValue := s.query,
                                 showSuggestionsDropdown := false,
                                 selectedSuggestionIndex := -1 },
           .search s.query sampleBarState.selectedScope))) :=
  ⟨⟨by decide, by decide⟩,
    handleKeyDown_selection_invariant sampleBarState .enter (by decide)
      (by decide)⟩

/-- Waits are re-indexed by one position when the retry loop steps from
attempt `i` to attempt `i + 1`. -/
theorem delays_shift (delayMs i n : Nat) :
    delayMs * (i + 1) ::
        (List.range n).map (fun j => delayMs * (i + 1 + j + 1)) =
      (List.range (n + 1)).map (fun j => delayMs * (i + j + 1)) := by
  rw [List.range_succ_eq_map, List.map_cons, List.map_map]
  have h2 : (List.range n).map (fun j => delayMs * (i + 1 + j + 1)) =
      (List.range n).map ((fun j => delayMs * (i + j + 1)) ∘ Nat.succ) := by
    refine List.map_congr_left fun a _ => ?_
    simp only [Function.comp, Nat.succ_eq_add_one]
    ring
  rw [h2]

/-- If every remaining attempt fails retryably, the loop exhausts its
attempts, waits between consecutive attempts, and throws the last error. -/
theorem retryLoop_all_fail (fn : Nat → Except ApiErr α) (delayMs : Nat)
    (err : Nat → ApiErr) (rem : Nat) :
    ∀ i, 1 ≤ rem →
      (∀ j, j < rem → fn (i + j) = .error (err (i + j)) ∧
        nonRetryable (err (i + j)) = false) →
      retryLoop fn delayMs i rem =
        (.error (some (err (i + rem - 1))), rem,
          (List.range (rem - 1)).map fun j => delayMs * (i + j + 1)) := by
  induction rem with
  | zero => intro i h; omega
  | succ r ih =>
    intro i _ hfail
    have h0 := hfail 0 (by omega)
    rw [Nat.add_zero] at h0
    unfold retryLoop
    rw [h0.1]
    simp only [h0.2, Bool.false_eq_true, if_false]
    cases r with
    | zero => simp
    | succ r' =>
      have hres := ih (i + 1) (by omega) (fun j hj => by
        have := hfail (j + 1) (by omega)
        rwa [(by omega : i + (j + 1) = i + 1 + j)] at this)
      simp only [hres]
      rw [(by omega : i + 1 + (r' + 1) - 1 = i + (r' + 1 + 1) - 1)]
      simp only [Nat.add_sub_cancel]
      rw [delays_shift]

/-- If the first `k` attempts fail retryably and attempt `k` settles the
call — success, or a non-retryable error rethrown immediately — the loop
stops there after exactly `k + 1` attempts. -/
theorem retryLoop_stop (fn : Nat → Except ApiErr α) (delayMs : Nat)
    (err : Nat → ApiErr) (k : Nat) :
    ∀ i rem, k < rem →
      (∀ j, j < k → fn (i + j) = .error (err (i + j)) ∧
        nonRetryable (err (i + j)) = false) →
      (∀ v, fn (i + k) = .ok v →
        retryLoop fn delayMs i rem =
          (.ok v, k + 1, (List.range k).map fun j => delayMs * (i + j + 1))) ∧
      (∀ e, fn (i + k) = .error e → nonRetryable e = true →
        retryLoop fn delayMs i rem =
          (.error (some e), k + 1,
            (List.range k).map fun j => delayMs * (i + j + 1))) := by
  induction k with
  | zero =>
    intro i rem hrem _
    obtain ⟨r, rfl⟩ : ∃ r, rem = r + 1 := ⟨rem - 1, by omega⟩
    constructor
    · intro v hok
      rw [Nat.add_zero] at hok
      unfold retryLoop
      rw [hok]
      simp
    · intro e herr hnr
      rw [Nat.add_zero] at herr
      unfold retryLoop
      rw [herr]
      simp [hnr]
  | succ k ih =>
    intro i rem hrem hpre
    obtain ⟨r, rfl⟩ : ∃ r, rem = r + 1 := ⟨rem - 1, by omega⟩
    have hr : k < r := by omega
    obtain ⟨r', rfl⟩ : ∃ r', r = r' + 1 := ⟨r - 1, by omega⟩
    have h0 := hpre 0 (by omega)
    rw [Nat.add_zero] at h0
    have hih := ih (i + 1) (r' + 1) (by omega) (fun j hj => by
      have := hpre (j + 1) (by omega)
      rwa [(by omega : i + (j + 1) = i + 1 + j)] at this)
    constructor
    · intro v hok
      unfold retryLoop
      rw [h0.1]
      simp only [h0.2, Bool.false_eq_true, if_false]
      have := hih.1 v (by rwa [(by omega : i + 1 + k = i + (k + 1))])
      simp only [this]
      rw [delays_shift]
    · intro e herr hnr
      unfold retryLoop
      rw [h0.1]
      simp only [h0.2, Bool.false_eq_true, if_false]
      have := hih.2 e (by rwa [(by omega : i + 1 + k = i + (k + 1))]) hnr
      simp only [this]
      rw [delays_shift]

/-- C3: `retryApiCall` re-invokes the call up to `maxRetries` times waiting
`delayMs * (attempt + 1)` between attempts, rethrows an auth or 4xx error
immediately without further attempts, and throws the last error after
`maxRetries` failed attempts; a success stops the retries at once. -/
theorem retryApiCall_spec (fn : Nat → Except ApiErr α)
    (maxRetries delayMs : Nat) (err : Nat → ApiErr) :
    (1 ≤ maxRetries →
      (∀ i, i < maxRetries → fn i = .error (err i) ∧
        nonRetryable (err i) = false) →
      retryApiCall fn maxRetries delayMs =
        (.error (some (err (maxRetries - 1))), maxRetries,
          (List.range (maxRetries - 1)).map fun j => delayMs * (j + 1))) ∧
    (∀ k e, k < maxRetries →
      (∀ i, i < k → fn i = .error (err i) ∧
        nonRetryable (err i) = false) →
      fn k = .error e → nonRetryable e = true →
      retryApiCall fn maxRetries delayMs =
        (.error (some e), k + 1,
          (List.range k).map fun j => delayMs * (j + 1))) ∧
    (∀ k v, k < maxRetries →
      (∀ i, i < k → fn i = .error (err i) ∧
        nonRetryable (err i) = false) →
      fn k = .ok v →
      retryApiCall fn maxRetries delayMs =
        (.ok v, k + 1, (List.range k).map fun j => delayMs * (j + 1))) := by
  have hzero : ∀ n, (List.range n).map (fun j => delayMs * (0 + j + 1)) =
      (List.range n).map (fun j => delayMs * (j + 1)) :=
    fun n => List.map_congr_left fun a _ => by norm_num
  refine ⟨?_, ?_, ?_⟩
  · intro hmax hfail
    have h := retryLoop_all_fail fn delayMs err maxRetries 0 hmax
      (fun j hj => by rw [Nat.zero_add]; exact hfail j hj)
    unfold retryApiCall
    rw [h, Nat.zero_add, hzero]
  · intro k e hk hpre herr hnr
    have h := (retryLoop_stop fn delayMs err k 0 maxRetries hk
      (fun j hj => by rw [Nat.zero_add]; exact hpre j hj)).2 e
      (by rwa [Nat.zero_add]) hnr
    unfold retryApiCall
    rw [h, hzero]
  · intro k v hk hpre hok
    have h := (retryLoop_stop fn delayMs err k 0 maxRetries hk
      (fun j hj => by rw [Nat.zero_add]; exact hpre j hj)).1 v
      (by rwa [Nat.zero_add])
    unfold retryApiCall
    rw [h, hzero]

/-- Witness for C3: three attempts at a persistent network failure exhaust
the retries with waits 5 and 10; an auth error stops after one attempt with
no wait; a success on the second attempt stops after two attempts. -/
theorem retryApiCall_spec_witness :
    retryApiCall (fun _ => (.error (networkError "down") : Except ApiErr Nat))
        3 5 = (.error (some (networkError "down")), 3, [5, 10]) ∧
    retryApiCall (fun _ => (.error (authError "denied") : Except ApiErr Nat))
        3 5 = (.error (some (authError "denied")), 1, []) ∧
    retryApiCall (fun i => if i = 0 then
        (.error (networkError "down") : Except ApiErr Nat) else .ok 42) 3 5 =
      (.ok 42, 2, [5]) := by
  refine ⟨?_, ?_, ?_⟩
  · have h := (retryApiCall_spec
      (fun _ => (.error (networkError "down") : Except ApiErr Nat)) 3 5
      (fun _ => networkError "down")).1 (by decide)
      (fun i _ => ⟨rfl, by decide⟩)
    rw [h]
    rfl
  · have h := (retryApiCall_spec
      (fun _ => (.error (authError "denied") : Except ApiErr Nat)) 3 5
      (fun _ => authError "denied")).2.1 0 (authError "denied") (by decide)
      (fun i hi => absurd hi (by omega)) rfl (by decide)
    rw [h]
    rfl
  · have h := (retryApiCall_spec
      (fun i => if i = 0 then
        (.error (networkError "down") : Except ApiErr Nat) else .ok 42) 3 5
      (fun _ => networkError "down")).2.2 1 42 (by decide)
      (fun i hi => by
        have hi0 : i = 0 := by omega
        subst hi0
        exact ⟨rfl, by decide⟩)
      rfl
    rw [h]
    rfl

/-- C5: page `k` of an `N`-item result set with page size `p` holds exactly
`min p (N - (k-1)*p)` items (truncated subtraction is `max 0`); `has_next` is
set exactly when the following page is non-empty and `has_previous` exactly
when a preceding page number exists; the results view offers "view more"
exactly when the reported total exceeds the returned count, offering the
difference. -/
theorem pagination_correct (xs : List α) (p k : Nat)
    (r : HybridSearchResponse) (hp : 1 ≤ p) (_hk : 1 ≤ k) :
    (paginate xs k p).items.length = min p (xs.length - (k - 1) * p) ∧
    ((paginate xs k p).has_next = true ↔ (paginate xs (k + 1) p).items ≠ []) ∧
    ((paginate xs k p).has_previous = true ↔ 1 < k) ∧
    ((memberViewMore r).isSome ↔
      r.member_results.length < r.member_total) ∧
    (∀ n, memberViewMore r = some n →
      n = r.member_total - r.member_results.length) ∧
    ((storyViewMore r).isSome ↔ r.story_results.length < r.story_total) ∧
    (∀ n, storyViewMore r = some n →
      n = r.story_total - r.story_results.length) := by
  refine ⟨?_, ?_, ?_, ?_, ?_, ?_, ?_⟩
  · simp [paginate, List.length_take, List.length_drop]
  · simp only [paginate, ne_eq, ← List.length_pos, List.length_take,
      List.length_drop, decide_eq_true_eq, Nat.add_sub_cancel]
    omega
  · simp [paginate]
  · unfold memberViewMore
    split <;> simp <;> omega
  · intro n
    unfold memberViewMore
    split
    · intro h
      cases h
      rfl
    · intro h
      cases h
  · unfold storyViewMore
    split <;> simp <;> omega
  · intro n
    unfold storyViewMore
    split
    · intro h
      cases h
      rfl
    · intro h
      cases h

/-- Witness for C5 on a three-item list, page 2 of size 2, and the sample
response (five members total, none returned). -/
theorem pagination_correct_witness :
    (1 ≤ 2 ∧ 1 ≤ 2) ∧
    ((paginate [10, 20, 30] 2 2).items.length =
        min 2 ([10, 20, 30].length - (2 - 1) * 2) ∧
      ((paginate [10, 20, 30] 2 2).has_next = true ↔
        (paginate [10, 20, 30] (2 + 1) 2).items ≠ []) ∧
      ((paginate [10, 20, 30] 2 2).has_previous = true ↔ 1 < 2) ∧
      ((memberViewMore sampleResponse).isSome ↔
        sampleResponse.member_results.length <
          sampleResponse.member_total) ∧
      (∀ n, memberViewMore sampleResponse = some n →
        n = sampleResponse.member_total -
          sampleResponse.member_results.length) ∧
      ((storyViewMore sampleResponse).isSome ↔
        sampleResponse.story_results.length < sampleResponse.story_total) ∧
      (∀ n, storyViewMore sampleResponse = some n →
        n = sampleResponse.story_total -
          sampleResponse.story_results.length)) :=
  ⟨⟨by decide, by decide⟩,
    pagination_correct [10, 20, 30] 2 2 sampleResponse (by decide) (by decide)⟩

/-- C7: whatever the tenant's suggestion log and the availability of the
backend, the suggestion list the search bar stores is capped at 8 entries
and never contains the query text verbatim. -/
theorem suggestions_capped_no_echo (log : List SearchSuggestion)
    (showSuggestions avail : Bool) (query : String) :
    (fetchSuggestions
        (fun q l => if avail then .ok (deriveSuggestions log q l)
          else .error (networkError "Failed to connect to server"))
        showSuggestions query).length ≤ 8 ∧
    (fetchSuggestions
        (fun q l => if avail then .ok (deriveSuggestions log q l)
          else .error (networkError "Failed to connect to server"))
        showSuggestions query).all (fun s => s.query != query) = true := by
  unfold fetchSuggestions
  split
  · simp
  · unfold getSuggestions
    split
    · simp
    · cases avail
      · simp
      · simp only [if_true]
        constructor
        · exact List.length_take_le 8 _
        · refine List.all_eq_true.mpr fun x hx => ?_
          unfold deriveSuggestions at hx
          have hmem : x ∈ log.filter fun s => s.query != query :=
            List.mem_of_mem_take hx
          simpa using List.of_mem_filter hmem

/-- Values of `clamp01` land in `[0, 1]`. -/
theorem clamp01_mem (x : ℚ) : 0 ≤ clamp01 x ∧ clamp01 x ≤ 1 :=
  ⟨le_max_left 0 _, max_le (by norm_num) (min_le_left 1 x)⟩

/-- With non-negative weights, the weighted evidence of an axis list sits
between 0 and the available weight, which is itself non-negative. -/
theorem weightedEvidence_bounds :
    ∀ l : List (Option ℚ × ℚ), (∀ x ∈ l, 0 ≤ x.2) →
      0 ≤ weightedEvidence l ∧ weightedEvidence l ≤ availableWeight l ∧
        0 ≤ availableWeight l
  | [], _ => by simp [weightedEvidence, availableWeight]
  | (none, w) :: rest, h => by
      have hr := weightedEvidence_bounds rest fun x hx => h x (by simp [hx])
      simpa [weightedEvidence, availableWeight] using hr
  | (some v, w) :: rest, h => by
      have hr := weightedEvidence_bounds rest fun x hx => h x (by simp [hx])
      have hw : 0 ≤ w := by simpa using h (some v, w) (by simp)
      have hc := clamp01_mem v
      simp only [weightedEvidence, availableWeight]
      refine ⟨add_nonneg (mul_nonneg hc.1 hw) hr.1, ?_, ?_⟩
      · have : clamp01 v * w ≤ w := by nlinarith [hc.1, hc.2]
        exact add_le_add this hr.2.1
      · exact add_nonneg hw hr.2.2

/-- C6: under non-negative documented weights the overall score lies in
`[0, 1]`, and it equals the combination of the clamped sub-scores under
per-axis redistributed weights — a missing axis contributes nothing while
its weight is redistributed proportionally over the available axes. -/
theorem score_bounds_and_redistribution (w : ScoringWeights) (s : SubSignals)
    (h1 : 0 ≤ w.semantic) (h2 : 0 ≤ w.text) (h3 : 0 ≤ w.popularity)
    (h4 : 0 ≤ w.recency) :
    0 ≤ combinedScore w s ∧ combinedScore w s ≤ 1 ∧
      combinedScore w s = redistributedScore w s := by
  have hx : ∀ x ∈ axisList w s, 0 ≤ x.2 := by
    intro x hx
    simp only [axisList, List.mem_cons, List.not_mem_nil, or_false] at hx
    rcases hx with rfl | rfl | rfl | rfl
    · exact h1
    · exact h2
    · exact h3
    · exact h4
  obtain ⟨hWE0, hWEle, hA0⟩ := weightedEvidence_bounds (axisList w s) hx
  refine ⟨?_, ?_, ?_⟩
  · unfold combinedScore
    split
    · exact le_refl 0
    · exact div_nonneg hWE0 hA0
  · unfold combinedScore
    split
    · exact zero_le_one
    · rename_i hA
      have hpos : 0 < availableWeight (axisList w s) :=
        lt_of_le_of_ne hA0 (Ne.symm hA)
      exact (div_le_one hpos).mpr hWEle
  · obtain ⟨os, ot, op, orc⟩ := s
    cases os <;> cases ot <;> cases op <;> cases orc <;>
      simp only [combinedScore, redistributedScore, axisList,
        availableWeight, weightedEvidence, axisContribution] <;>
      split <;>
      first
        | (rename_i h
           rw [h]
           simp)
        | ring

/-- Witness for C6 at the sample weights and signals (missing text axis,
raw popularity and recency out of range). -/
theorem score_bounds_and_redistribution_witness :
    (0 ≤ sampleWeights.semantic ∧ 0 ≤ sampleWeights.text ∧
      0 ≤ sampleWeights.popularity ∧ 0 ≤ sampleWeights.recency) ∧
    (0 ≤ combinedScore sampleWeights sampleSignals ∧
      combinedScore sampleWeights sampleSignals ≤ 1 ∧
      combinedScore sampleWeights sampleSignals =
        redistributedScore sampleWeights sampleSignals) :=
  ⟨⟨by norm_num [sampleWeights], by norm_num [sampleWeights],
    by norm_num [sampleWeights], by norm_num [sampleWeights]⟩,
    score_bounds_and_redistribution sampleWeights sampleSignals
      (by norm_num [sampleWeights]) (by norm_num [sampleWeights])
      (by norm_num [sampleWeights]) (by norm_num [sampleWeights])⟩

/-- Backend half of C8: a request with a negative (or zero) page, or a page
size outside 1–100, is rejected by the modelled endpoint with a field-level
validation error and no collaborator behind it is invoked. -/
theorem searchExecute_rejects_invalid
    (collab : SearchRequest → HybridSearchResponse) (req : SearchRequest)
    (h : req.page < 1 ∨ req.page_size < 1 ∨ 100 < req.page_size) :
    ∃ field reason,
      searchExecute collab req = (.error (.validation field reason), 0) := by
  unfold searchExecute validateSearchRequest
  rcases h with h | h | h
  · rw [if_pos h]
    exact ⟨_, _, rfl⟩
  · by_cases h1 : req.page < 1
    · rw [if_pos h1]
      exact ⟨_, _, rfl⟩
    · rw [if_neg h1, if_pos h]
      exact ⟨_, _, rfl⟩
  · by_cases h1 : req.page < 1
    · rw [if_pos h1]
      exact ⟨_, _, rfl⟩
    · rw [if_neg h1]
      by_cases h2 : req.page_size < 1
      · rw [if_pos h2]
        exact ⟨_, _, rfl⟩
      · rw [if_neg h2, if_pos h]
        exact ⟨_, _, rfl⟩

/-- Counterexample to C8 as stated: `performAdvancedSearch` posts the
request unvalidated, so asking for page `-1` issues exactly one request —
carrying the invalid pagination — to the backend `/search` endpoint, and
with a healthy backend even receives a response.  No frontend code keeps an
invalid-pagination request from being issued. -/
theorem invalid_request_still_issued :
    sampleBadRequest.page < 1 ∧
    performAdvancedSearch (fun _ => .ok (some sampleResponse)) "react"
        sampleBadOptions = (.ok sampleResponse, [sampleBadRequest]) :=
  ⟨by decide, rfl⟩

/-- C8 (amended): the frontend posts the search request unvalidated, so a
request with a negative page or an out-of-bounds page size is issued to the
backend endpoint exactly as built; the endpoint then rejects it with a
field-level validation error before the store or the embedding provider is
invoked. -/
theorem invalid_pagination_rejected_at_endpoint
    (collab : SearchRequest → HybridSearchResponse)
    (post : SearchRequest → Except ApiErr (Option HybridSearchResponse))
    (query : String) (options : SearchOptions)
    (h : (buildSearchRequest query options).page < 1 ∨
      (buildSearchRequest query options).page_size < 1 ∨
      100 < (buildSearchRequest query options).page_size) :
    (performAdvancedSearch post query options).2 =
      [buildSearchRequest query options] ∧
    ∃ field reason,
      searchExecute collab (buildSearchRequest query options) =
        (.error (.validation field reason), 0) := by
  constructor
  · unfold performAdvancedSearch search
    split <;> rfl
  · exact searchExecute_rejects_invalid collab (buildSearchRequest query options) h

/-- Witness for the amended C8 at the concrete options requesting
page `-1`. -/
theorem invalid_pagination_rejected_at_endpoint_witness :
    ((buildSearchRequest "react" sampleBadOptions).page < 1 ∨
      (buildSearchRequest "react" sampleBadOptions).page_size < 1 ∨
      100 < (buildSearchRequest "react" sampleBadOptions).page_size) ∧
    ((performAdvancedSearch (fun _ => .ok (some sampleResponse)) "react"
        sampleBadOptions).2 = [buildSearchRequest "react" sampleBadOptions] ∧
      ∃ field reason,
        searchExecute (fun _ => sampleResponse)
            (buildSearchRequest "react" sampleBadOptions) =
          (.error (.validation field reason), 0)) :=
  ⟨Or.inl (by decide),
    invalid_pagination_rejected_at_endpoint (fun _ => sampleResponse)
      (fun _ => .ok (some sampleResponse)) "react" sampleBadOptions
      (Or.inl (by decide))⟩

/-- Witness for C10 on concrete short and long character lists with
`maxLength = 3`. -/
theorem truncateContent_spec_witness :
    (['a', 'b'].length ≤ 3 ∧ truncateContent ['a', 'b'] 3 = ['a', 'b']) ∧
    (3 < ['a', 'b', 'c', 'd'].length ∧
      truncateContent ['a', 'b', 'c', 'd'] 3 =
        ['a', 'b', 'c', 'd'].take 3 ++ ('.' :: '.' :: '.' :: [])) :=
  ⟨⟨by decide, (truncateContent_spec ['a', 'b'] 3).1 (by decide)⟩,
   ⟨by decide, (truncateContent_spec ['a', 'b', 'c', 'd'] 3).2.1 (by decide)⟩⟩

end Stonesoup
